import Mathlib

/-!
# Formal model of the forward-only ESC throttle controller

A shallow embedding, in Lean 4, of the firmware in
`Programmierung/20251218_main_Prototyping` (FireBeetle ESP32 + THW-1060 ESC):
the pulse model, the ramp engine, the command interpreter, the BLE receive
callback and one iteration of the main loop, together with theorems checking
the documented properties against these definitions.

Modelling conventions:
* C `int` and `long` become `Int`; C integer division (truncation toward
  zero) is `Int.tdiv`.
* `uint8_t` quantities (`g_targetPct`, percent parameters) are `Nat`s that
  the code itself keeps in `0..100` via clamping; the float→`uint8_t` cast
  is truncation (`u8OfFloat`).
* `uint32_t` millisecond timestamps are `Nat`s below `2^32`; the wrapping
  subtraction `now - last` on `uint32_t` is `u32sub`.
* `float` becomes `ℚ` (exact arithmetic; rounding error of IEEE `float` is
  not modelled).
* Arduino `String` becomes `List Char` (`Str`), with the Arduino methods
  (`trim`, `startsWith`, `charAt`, `toUpperCase`, `substring`, `toInt`,
  `toFloat`) modelled explicitly on it.
* Side effects (`Servo.writeMicroseconds`, `logLine`, Serial debug prints,
  the LED pin) become an explicit list of emitted `Effect`s; `millis()`
  becomes an explicit `now` parameter threaded into each entry point.
-/

/-- The Arduino `String` contents, as a list of characters. -/
abbrev Str := List Char

/-- `clampInt` from the source: clamp an `int` to `[lo, hi]`. -/
def clampInt (v lo hi : Int) : Int :=
  if v < lo then lo else if v > hi then hi else v

/-- `clampFloat` from the source: clamp a `float` to `[lo, hi]`. -/
def clampFloat (v lo hi : ℚ) : ℚ :=
  if v < lo then lo else if v > hi then hi else v

/-- `EscConfig` with the default member initialisers from the source. -/
structure EscConfig where
  pinSignal : Int := 16
  usMin : Int := 1000
  usMax : Int := 2000
  usNeutral : Int := 1500
  usMinFwd : Int := 1520
  usMaxFwd : Int := 2000
deriving Repr, DecidableEq

/-- `g_escCfg`: the one configuration instance, all defaults. -/
def g_escCfg : EscConfig := {}

/-- `MOTOR_KV_RPM_PER_V = 20000.0f / 7.2f` (float modelled as exact `ℚ`). -/
def MOTOR_KV_RPM_PER_V : ℚ := 20000 / 7.2

/-- `g_battVoltage_V = 8.4f`. -/
def g_battVoltage_V : ℚ := 8.4

/-- `escClampForwardOnly`: clamp to the physical range `[usMin, usMax]`,
then force anything below `usMinFwd` to `usNeutral` and anything above
`usMaxFwd` down to `usMaxFwd`. -/
def escClampForwardOnly (cfg : EscConfig) (us0 : Int) : Int :=
  let us1 := clampInt us0 cfg.usMin cfg.usMax
  let us2 := if us1 < cfg.usMinFwd then cfg.usNeutral else us1
  if us2 > cfg.usMaxFwd then cfg.usMaxFwd else us2

/-- `escPulseFromPercent`: `0` maps to `usNeutral`; `1..100` maps linearly
onto `[usMinFwd, usMaxFwd]` with C integer division, then the result goes
through `escClampForwardOnly` once more. -/
def escPulseFromPercent (cfg : EscConfig) (pct0 : Nat) : Int :=
  let pct := clampInt (pct0 : Int) 0 100
  if pct = 0 then cfg.usNeutral
  else
    let span := cfg.usMaxFwd - cfg.usMinFwd
    let us := cfg.usMinFwd + Int.tdiv (span * pct) 100
    escClampForwardOnly cfg us

/-- `estimateRpmFromPercent`: open-loop no-load rpm estimate. -/
def estimateRpmFromPercent (pct0 : ℚ) : ℚ :=
  let pct := clampFloat pct0 0 100
  let rpmNoLoad := MOTOR_KV_RPM_PER_V * g_battVoltage_V
  rpmNoLoad * (pct / 100)

/-- The C cast `(uint8_t)x` applied to a nonnegative `float`:
truncation toward zero, reduced mod 2^8. -/
def u8OfFloat (q : ℚ) : Nat := (⌊q⌋).toNat % 256

/-- `percentFromTargetRpm`: inverse of the rpm estimate, clamped to
`[0,100]` and rounded to the nearest integer percent. -/
def percentFromTargetRpm (rpmTarget : ℚ) : Nat :=
  if rpmTarget ≤ 0 then 0
  else
    let rpmNoLoad := MOTOR_KV_RPM_PER_V * g_battVoltage_V
    if rpmNoLoad ≤ 1 then 0
    else u8OfFloat (clampFloat (100 * (rpmTarget / rpmNoLoad)) 0 100 + 1/2)

/-- `uint32_t` subtraction `a - b` (exact for operands below `2^32`). -/
def u32sub (a b : Nat) : Nat := (a + 4294967296 - b) % 4294967296

/- ------------------------------------------------------------------ -/
/- Arduino String operations, modelled on lists of characters         -/
/- ------------------------------------------------------------------ -/

/-- C `isspace` in the C locale (used by Arduino `String::trim`). -/
def isSpaceC (c : Char) : Bool :=
  c = ' ' || c = '\t' || c = '\n' || c = '\x0b' || c = '\x0c' || c = '\r'

/-- Arduino `String::trim`: strip leading and trailing whitespace. -/
def trimA (s : Str) : Str :=
  ((s.dropWhile isSpaceC).reverse.dropWhile isSpaceC).reverse

/-- Arduino `String::startsWith`: `startsWithA s p` holds when `p` is a
prefix of `s`, i.e. the first `p.length` characters of `s` are exactly
`p`. -/
def startsWithA (s p : Str) : Bool := decide (s.take p.length = p)

/-- Arduino `String::charAt` (returns the NUL character out of range). -/
def charAtA (s : Str) (i : Nat) : Char := s.getD i (Char.ofNat 0)

/-- Arduino `String::toUpperCase` (ASCII). -/
def toUpperA (s : Str) : Str := s.map Char.toUpper

/-- `atol`-style digit accumulation: consume leading digits into `acc`,
stop at the first non-digit. -/
def atolLoop : Str → Int → Int
  | [], acc => acc
  | c :: cs, acc =>
      if c.isDigit then atolLoop cs (acc * 10 + ((c.toNat : Int) - 48)) else acc

/-- Arduino `String::toInt` (= C `atol`): skip whitespace, optional sign,
leading digits; `0` when no digits are present. -/
def toIntA (s : Str) : Int :=
  match s.dropWhile isSpaceC with
  | '-' :: rest => - atolLoop rest 0
  | '+' :: rest => atolLoop rest 0
  | rest => atolLoop rest 0

/-- Value of a string of decimal digits. -/
def digitsToNat (ds : Str) : Nat := ds.foldl (fun a c => a * 10 + (c.toNat - 48)) 0

/-- Arduino `String::toFloat` (= C `atof`, modelled exactly over `ℚ`):
skip whitespace, optional sign, mantissa digits with optional fraction,
optional exponent; `0` when the mantissa has no digits. -/
def toFloatA (s : Str) : ℚ :=
  let s1 := s.dropWhile isSpaceC
  let signNeg := startsWithA s1 ['-']
  let s2 := if signNeg || startsWithA s1 ['+'] then s1.drop 1 else s1
  let ip := s2.takeWhile (fun c => c.isDigit)
  let s3 := s2.drop ip.length
  let fp := if startsWithA s3 ['.'] then (s3.drop 1).takeWhile (fun c => c.isDigit) else []
  let s4 := if startsWithA s3 ['.'] then (s3.drop 1).drop fp.length else s3
  if ip.length = 0 ∧ fp.length = 0 then 0
  else
    let mant : ℚ := (digitsToNat ip : ℚ) + (digitsToNat fp : ℚ) / ((10 : ℚ) ^ fp.length)
    let eTail := if startsWithA s4 ['e'] || startsWithA s4 ['E'] then s4.drop 1 else []
    let eNeg := startsWithA eTail ['-']
    let eDigits :=
      (if eNeg || startsWithA eTail ['+'] then eTail.drop 1 else eTail).takeWhile
        (fun c => c.isDigit)
    let scale : ℚ := (10 : ℚ) ^ digitsToNat eDigits
    let scaled := if eDigits.length = 0 then mant
      else if eNeg then mant / scale else mant * scale
    if signNeg then -scaled else scaled

/-- Decimal digits of a natural number. -/
def natToStr (n : Nat) : Str := Nat.toDigits 10 n

/-- Decimal rendering of an integer. -/
def intToStr (v : Int) : Str :=
  if v < 0 then '-' :: natToStr v.natAbs else natToStr v.toNat

/-- Arduino `String(float, n)`: fixed-point rendering with `n` decimals,
rounded to nearest (half away from zero). -/
def fmtFixed (q : ℚ) (n : Nat) : Str :=
  let scaled : Nat := (⌊|q| * ((10 : ℚ) ^ n) + 1/2⌋).toNat
  let ipart := scaled / 10 ^ n
  let fdigits := natToStr (scaled % 10 ^ n)
  (if q < 0 then ['-'] else []) ++ natToStr ipart ++
    (if n = 0 then [] else '.' :: (List.replicate (n - fdigits.length) '0' ++ fdigits))

/-- A boolean rendered as `"1"` / `"0"`. -/
def boolS (b : Bool) : Str := if b then ['1'] else ['0']

/- ------------------------------------------------------------------ -/
/- Runtime state and effects                                          -/
/- ------------------------------------------------------------------ -/

/-- The mutable globals of the firmware. -/
structure SysState where
  deviceConnected : Bool
  armed : Bool
  targetPct : Nat
  outputPct : ℚ
  lastLoopMs : Nat
  lastInputMs : Nat
  rampTimeMs : Nat
  debugEnabled : Bool
  logEnabled : Bool
  logPeriodMs : Nat
  lastLogMs : Nat
deriving Repr, DecidableEq

/-- The initial values of the globals (source initialisers). -/
def initState : SysState :=
  { deviceConnected := false, armed := false, targetPct := 0, outputPct := 0,
    lastLoopMs := 0, lastInputMs := 0, rampTimeMs := 300,
    debugEnabled := true, logEnabled := false, logPeriodMs := 200, lastLogMs := 0 }

/-- The human-readable status line built by `printStatus`, abstracted to
the values of its fields (in rendering order). -/
structure StatusLine where
  reason : Str
  conn : Bool
  armed : Bool
  targetPct : Nat
  outPct : ℚ
  pulse_us : Int
  rpm_est : ℚ
  ramp_ms : Nat
  log : Bool
deriving Repr, DecidableEq

/-- One observable side effect of the firmware. -/
inductive Effect where
  /-- `g_esc.writeMicroseconds(us)`: a pulse handed to the ESC driver. -/
  | pulse (us : Int)
  /-- `digitalWrite(LED_PIN, ...)`. -/
  | led (isOn : Bool)
  /-- `logLine(...)` with plain text (Serial + BLE notify). -/
  | line (s : Str)
  /-- `printStatus(reason)`: a status line via `logLine`. -/
  | status (st : StatusLine)
  /-- `logCsvNow(tag)`: a CSV line via `logLine`. -/
  | csv (s : Str)
  /-- Serial-only debug prints (`CPAD raw=...`, `BLE RX: ...`). -/
  | debugOut (s : Str)
deriving Repr, DecidableEq

/-- `escWriteMicrosecondsSafe`: every issued pulse goes through the
forward-only clamp at the single write point. -/
def escWriteMicrosecondsSafe (cfg : EscConfig) (us : Int) : Effect :=
  Effect.pulse (escClampForwardOnly cfg us)

/-- `printStatus`: the status snapshot of the current state. -/
def printStatus (cfg : EscConfig) (reason : Str) (s : SysState) : StatusLine :=
  { reason := reason
    conn := s.deviceConnected
    armed := s.armed
    targetPct := s.targetPct
    outPct := s.outputPct
    pulse_us := escPulseFromPercent cfg (u8OfFloat (s.outputPct + 1/2))
    rpm_est := estimateRpmFromPercent s.outputPct
    ramp_ms := s.rampTimeMs
    log := s.logEnabled }

/-- `logCsvNow`: the CSV line
`t_ms,tag,connected,armed,targetPct,outputPct,pulse_us,rpm_est`,
built field by field exactly as the source concatenates it. -/
def logCsvNow (cfg : EscConfig) (now : Nat) (tag : Str) (s : SysState) : Str :=
  natToStr now ++ [','] ++ tag ++ [','] ++
    boolS s.deviceConnected ++ [','] ++ boolS s.armed ++ [','] ++
    natToStr s.targetPct ++ [','] ++ fmtFixed s.outputPct 2 ++ [','] ++
    intToStr (escPulseFromPercent cfg (u8OfFloat (s.outputPct + 1/2))) ++ [','] ++
    fmtFixed (estimateRpmFromPercent s.outputPct) 0

/-- `setTargetPercent`: clamp into `0..100` and record the input time. -/
def setTargetPercent (now : Nat) (pct : Nat) (s : SysState) : SysState :=
  { s with targetPct := (clampInt (pct : Int) 0 100).toNat, lastInputMs := now }

/-- `stopMotor`: zero the target and the ramped output and issue the
neutral pulse immediately. -/
def stopMotor (cfg : EscConfig) (now : Nat) (s : SysState) : SysState × List Effect :=
  ({ s with targetPct := 0, outputPct := 0, lastInputMs := now },
   [escWriteMicrosecondsSafe cfg cfg.usNeutral])

/-- `escArmNeutral`: hold neutral for the arming duration, then mark the
controller armed.  The blocking wait only passes time, which is threaded
explicitly, so it contributes no further state change here. -/
def escArmNeutral (cfg : EscConfig) (s : SysState) : SysState × List Effect :=
  ({ s with armed := true }, [escWriteMicrosecondsSafe cfg cfg.usNeutral])

/-- `applyThrottleWithRamping`: the per-tick ramp update.  `dt` is the
`uint32_t` elapsed time since the previous tick (0 on the very first one).
When unarmed the output is forced to 0 and neutral is issued; otherwise the
output moves toward the target, rate-limited by `rampTimeMs`, is clamped to
`[0,100]`, and the corresponding pulse is issued. -/
def applyThrottleWithRamping (cfg : EscConfig) (now : Nat) (s0 : SysState) :
    SysState × List Effect :=
  let dt := if s0.lastLoopMs = 0 then 0 else u32sub now s0.lastLoopMs
  let s := { s0 with lastLoopMs := now }
  if !s.armed then
    ({ s with outputPct := 0 }, [escWriteMicrosecondsSafe cfg cfg.usNeutral])
  else
    let out1 :=
      if s.rampTimeMs = 0 ∨ dt = 0 then ((s.targetPct : ℚ))
      else
        let maxDelta : ℚ := 100 * ((dt : ℚ) / (s.rampTimeMs : ℚ))
        let target : ℚ := (s.targetPct : ℚ)
        let delta := target - s.outputPct
        if |delta| ≤ maxDelta then target
        else s.outputPct + (if 0 < delta then maxDelta else -maxDelta)
    let out := clampFloat out1 0 100
    ({ s with outputPct := out },
     [escWriteMicrosecondsSafe cfg (escPulseFromPercent cfg (u8OfFloat (out + 1/2)))])

/- ------------------------------------------------------------------ -/
/- Theorems for C1 and C3                                             -/
/- ------------------------------------------------------------------ -/

/-- C1. For every integer pulse input `p`, `escClampForwardOnly` first
clamps `p` to `[usMin, usMax]`; any value then below `usMinFwd` is forced to
`usNeutral` (never to an intermediate value) and any value above `usMaxFwd`
is forced to `usMaxFwd`, so the result is either `usNeutral` or lies in
`[usMinFwd, usMaxFwd]` — there is no "creeping" zone between `usMin` and
`usMinFwd` other than the neutral snap itself. Stated for any configuration
whose forward band is well-formed (`usMinFwd ≤ usMaxFwd`,
`usNeutral ≤ usMaxFwd`), which the default `g_escCfg` satisfies. -/
theorem escClampForwardOnly_no_creeping_zone (cfg : EscConfig) (p : Int)
    (hfwd : cfg.usMinFwd ≤ cfg.usMaxFwd) (hneu : cfg.usNeutral ≤ cfg.usMaxFwd) :
    (escClampForwardOnly cfg p = cfg.usNeutral ∨
      (cfg.usMinFwd ≤ escClampForwardOnly cfg p ∧
        escClampForwardOnly cfg p ≤ cfg.usMaxFwd)) ∧
    (clampInt p cfg.usMin cfg.usMax < cfg.usMinFwd →
      escClampForwardOnly cfg p = cfg.usNeutral) ∧
    (cfg.usMaxFwd < clampInt p cfg.usMin cfg.usMax →
      escClampForwardOnly cfg p = cfg.usMaxFwd) := by
  simp only [escClampForwardOnly, clampInt]
  split_ifs <;> omega

/-- Witness for C1 at the concrete configuration and `p = 1234`
(which lands in the creeping zone and is snapped to neutral). -/
theorem escClampForwardOnly_no_creeping_zone_witness :
    (escClampForwardOnly g_escCfg 1234 = g_escCfg.usNeutral ∨
      (g_escCfg.usMinFwd ≤ escClampForwardOnly g_escCfg 1234 ∧
        escClampForwardOnly g_escCfg 1234 ≤ g_escCfg.usMaxFwd)) ∧
    (clampInt 1234 g_escCfg.usMin g_escCfg.usMax < g_escCfg.usMinFwd →
      escClampForwardOnly g_escCfg 1234 = g_escCfg.usNeutral) ∧
    (g_escCfg.usMaxFwd < clampInt 1234 g_escCfg.usMin g_escCfg.usMax →
      escClampForwardOnly g_escCfg 1234 = g_escCfg.usMaxFwd) :=
  escClampForwardOnly_no_creeping_zone g_escCfg 1234 (by decide) (by decide)

/-- C3. For every `pct` in `0..100`, `escPulseFromPercent` returns
exactly `usNeutral` when `pct = 0`, and for `pct` in `1..100` returns the
truncated linear interpolation `usMinFwd + (usMaxFwd - usMinFwd) * pct / 100`
(the final safety clamp leaves it unchanged), which lies within
`[usMinFwd, usMaxFwd]`. Stated for the concrete configuration. -/
theorem escPulseFromPercent_interpolation (pct : Nat) (hp : pct ≤ 100) :
    (pct = 0 → escPulseFromPercent g_escCfg pct = g_escCfg.usNeutral) ∧
    (1 ≤ pct →
      escPulseFromPercent g_escCfg pct =
        g_escCfg.usMinFwd +
          Int.tdiv ((g_escCfg.usMaxFwd - g_escCfg.usMinFwd) * (pct : Int)) 100 ∧
      g_escCfg.usMinFwd ≤ escPulseFromPercent g_escCfg pct ∧
      escPulseFromPercent g_escCfg pct ≤ g_escCfg.usMaxFwd) := by
  interval_cases pct <;> decide

/-- Witness for C3 at `pct = 50`. -/
theorem escPulseFromPercent_interpolation_witness :
    (50 = 0 → escPulseFromPercent g_escCfg 50 = g_escCfg.usNeutral) ∧
    (1 ≤ 50 →
      escPulseFromPercent g_escCfg 50 =
        g_escCfg.usMinFwd +
          Int.tdiv ((g_escCfg.usMaxFwd - g_escCfg.usMinFwd) * (50 : Int)) 100 ∧
      g_escCfg.usMinFwd ≤ escPulseFromPercent g_escCfg 50 ∧
      escPulseFromPercent g_escCfg 50 ≤ g_escCfg.usMaxFwd) :=
  escPulseFromPercent_interpolation 50 (by decide)


/-- The float clamp really lands in `[lo, hi]`. -/
theorem clampFloat_mem (v lo hi : ℚ) (h : lo ≤ hi) :
    lo ≤ clampFloat v lo hi ∧ clampFloat v lo hi ≤ hi := by
  unfold clampFloat
  split_ifs <;> constructor <;> linarith

/-- Closed form of the ramped output of an armed tick. -/
theorem applyThrottle_armed_outputPct (cfg : EscConfig) (now : Nat) (s : SysState)
    (dt : Nat) (hdt : (if s.lastLoopMs = 0 then 0 else u32sub now s.lastLoopMs) = dt)
    (harm : s.armed = true) :
    ((applyThrottleWithRamping cfg now s).1).outputPct =
      clampFloat
        (if s.rampTimeMs = 0 ∨ dt = 0 then ((s.targetPct : ℚ))
         else if |((s.targetPct : ℚ)) - s.outputPct| ≤
             100 * ((dt : ℚ) / (s.rampTimeMs : ℚ)) then ((s.targetPct : ℚ))
         else s.outputPct +
           (if 0 < ((s.targetPct : ℚ)) - s.outputPct
            then 100 * ((dt : ℚ) / (s.rampTimeMs : ℚ))
            else -(100 * ((dt : ℚ) / (s.rampTimeMs : ℚ)))))
        0 100 := by
  simp only [applyThrottleWithRamping, hdt, harm, Bool.not_true, Bool.false_eq_true,
    if_false]

/-- C2. For every armed tick of `applyThrottleWithRamping` with
`rampTimeMs > 0` and elapsed time `dt > 0`, `outputPct` moves from its
previous value toward `targetPct` by at most
`maxDelta = 100 * dt / rampTimeMs`, never overshoots `targetPct` within the
tick, and the result is always clamped to `[0,100]`; if `rampTimeMs = 0` or
`dt = 0`, `outputPct` snaps to `targetPct` immediately.  `dt` is the
elapsed `uint32_t` time the code computes (0 on the very first tick); the
hypotheses `targetPct ≤ 100` and `outputPct ∈ [0,100]` are the invariants
the code itself maintains on those fields. -/
theorem applyThrottleWithRamping_ramp_invariant (cfg : EscConfig) (now : Nat)
    (s : SysState) (dt : Nat)
    (hdt : (if s.lastLoopMs = 0 then 0 else u32sub now s.lastLoopMs) = dt)
    (harm : s.armed = true) (htp : s.targetPct ≤ 100)
    (hlo : 0 ≤ s.outputPct) (hhi : s.outputPct ≤ 100) :
    ((s.rampTimeMs = 0 ∨ dt = 0) →
      ((applyThrottleWithRamping cfg now s).1).outputPct = (s.targetPct : ℚ)) ∧
    (s.rampTimeMs ≠ 0 → dt ≠ 0 →
      |((applyThrottleWithRamping cfg now s).1).outputPct - s.outputPct| ≤
          100 * ((dt : ℚ) / (s.rampTimeMs : ℚ)) ∧
      min s.outputPct (s.targetPct : ℚ) ≤
          ((applyThrottleWithRamping cfg now s).1).outputPct ∧
      ((applyThrottleWithRamping cfg now s).1).outputPct ≤
          max s.outputPct (s.targetPct : ℚ)) ∧
    (0 ≤ ((applyThrottleWithRamping cfg now s).1).outputPct ∧
      ((applyThrottleWithRamping cfg now s).1).outputPct ≤ 100) := by
  have htpq : ((s.targetPct : ℚ)) ≤ 100 := by exact_mod_cast htp
  have htpq0 : (0 : ℚ) ≤ (s.targetPct : ℚ) := Nat.cast_nonneg _
  have hout := applyThrottle_armed_outputPct cfg now s dt hdt harm
  refine ⟨?_, ?_, ?_⟩
  · -- snap case
    intro hsnap
    rw [hout, if_pos hsnap]
    unfold clampFloat
    rw [if_neg (not_lt.mpr htpq0), if_neg (not_lt.mpr htpq)]
  · -- rate-limited case
    intro hr hd
    have hsnapf : ¬ (s.rampTimeMs = 0 ∨ dt = 0) := by simp [hr, hd]
    rw [hout, if_neg hsnapf]
    set md : ℚ := 100 * ((dt : ℚ) / (s.rampTimeMs : ℚ)) with hmd
    have hdq : (0 : ℚ) < (dt : ℚ) := by exact_mod_cast Nat.pos_of_ne_zero hd
    have hrq : (0 : ℚ) < (s.rampTimeMs : ℚ) := by exact_mod_cast Nat.pos_of_ne_zero hr
    have hmdpos : 0 < md := by
      rw [hmd]
      exact mul_pos (by norm_num) (div_pos hdq hrq)
    by_cases hsmall : |((s.targetPct : ℚ)) - s.outputPct| ≤ md
    · -- the target is reached within this tick
      rw [if_pos hsmall]
      unfold clampFloat
      rw [if_neg (not_lt.mpr htpq0), if_neg (not_lt.mpr htpq)]
      exact ⟨hsmall, min_le_of_right_le le_rfl, le_max_right _ _⟩
    · rw [if_neg hsmall, not_le, lt_abs] at *
      by_cases hpos : 0 < ((s.targetPct : ℚ)) - s.outputPct
      · -- step up by exactly md, strictly below the target
        rw [if_pos hpos]
        have hlt : s.outputPct + md < (s.targetPct : ℚ) := by
          rcases hsmall with h | h
          · linarith
          · linarith
        unfold clampFloat
        rw [if_neg (show ¬ (s.outputPct + md < 0) by linarith),
          if_neg (show ¬ (s.outputPct + md > 100) by linarith)]
        refine ⟨?_, ?_, ?_⟩
        · rw [add_sub_cancel_left, abs_of_pos hmdpos]
        · exact (min_le_left _ _).trans (by linarith)
        · exact le_max_of_le_right (le_of_lt hlt)
      · -- step down by exactly md, strictly above the target
        rw [if_neg hpos]
        push_neg at hpos
        have hgt : (s.targetPct : ℚ) < s.outputPct + -md := by
          rcases hsmall with h | h
          · linarith
          · linarith
        unfold clampFloat
        rw [if_neg (show ¬ (s.outputPct + -md < 0) by linarith),
          if_neg (show ¬ (s.outputPct + -md > 100) by linarith)]
        refine ⟨?_, ?_, ?_⟩
        · rw [add_sub_cancel_left, abs_neg, abs_of_pos hmdpos]
        · exact (min_le_right _ _).trans (le_of_lt hgt)
        · exact le_max_of_le_left (by linarith)
  · rw [hout]
    exact clampFloat_mem _ 0 100 (by norm_num)

/-- State for the C2 witness: armed, target 80, output 0, ramp 300 ms,
previous tick at 100 ms. -/
def rampWitnessState : SysState :=
  { initState with armed := true, targetPct := 80, lastLoopMs := 100 }

/-- Witness for C2: the tick at 110 ms (`dt = 10 ms`) moves the output by
`maxDelta = 10/3` percent at most. -/
theorem applyThrottleWithRamping_ramp_invariant_witness :
    ((rampWitnessState.rampTimeMs = 0 ∨ (10 : Nat) = 0) →
      ((applyThrottleWithRamping g_escCfg 110 rampWitnessState).1).outputPct =
        (rampWitnessState.targetPct : ℚ)) ∧
    (rampWitnessState.rampTimeMs ≠ 0 → (10 : Nat) ≠ 0 →
      |((applyThrottleWithRamping g_escCfg 110 rampWitnessState).1).outputPct -
          rampWitnessState.outputPct| ≤
        100 * (((10 : Nat) : ℚ) / (rampWitnessState.rampTimeMs : ℚ)) ∧
      min rampWitnessState.outputPct (rampWitnessState.targetPct : ℚ) ≤
        ((applyThrottleWithRamping g_escCfg 110 rampWitnessState).1).outputPct ∧
      ((applyThrottleWithRamping g_escCfg 110 rampWitnessState).1).outputPct ≤
        max rampWitnessState.outputPct (rampWitnessState.targetPct : ℚ)) ∧
    (0 ≤ ((applyThrottleWithRamping g_escCfg 110 rampWitnessState).1).outputPct ∧
      ((applyThrottleWithRamping g_escCfg 110 rampWitnessState).1).outputPct ≤ 100) :=
  applyThrottleWithRamping_ramp_invariant g_escCfg 110 rampWitnessState 10
    (by decide) rfl (by decide)
    (by norm_num [rampWitnessState, initState])
    (by norm_num [rampWitnessState, initState])

/- ------------------------------------------------------------------ -/
/- Command interpreter, BLE callback, main loop                       -/
/- ------------------------------------------------------------------ -/

/-- Shortcut: the characters of a string literal. -/
def strL (s : String) : Str := s.toList

/-- Control Pad button id `1` (FULL). -/
def BTN_FULL_ID : Int := 1

/-- Control Pad button id `2` (STOP). -/
def BTN_STOP_ID : Int := 2

/-- Control Pad button id `5` (up arrow). -/
def BTN_UP_ID : Int := 5

/-- Control Pad button id `6` (down arrow). -/
def BTN_DOWN_ID : Int := 6

/-- The `printHelp` text. -/
def printHelpText : Str :=
  strL "HELP: ARM, STOP, FULL, SET <0..100>, RPM <val>, US <1000..2000>, RAMP <ms>, DBG ON|OFF, LOG START|STOP, LOG PERIOD <ms>, STATUS, LED ON|OFF"

/-- The body of `handleTextCommand` on the trimmed, nonempty command line:
first the Control Pad micro-protocol, then the case-insensitive keyword
protocol, in exactly the source's match order. -/
def handleCmdTrimmed (cfg : EscConfig) (now : Nat) (cmd : Str) (s : SysState) :
    SysState × List Effect :=
  if startsWithA cmd (strL "!B") ∧ 4 ≤ cmd.length then
    let btn : Int := ((charAtA cmd 2).toNat : Int) - 48
    let bstate : Int := ((charAtA cmd 3).toNat : Int) - 48
    let dbg : List Effect :=
      if s.debugEnabled then
        [Effect.debugOut (strL "CPAD raw=" ++ cmd ++ strL " btn=" ++ intToStr btn ++
          strL " state=" ++ intToStr bstate)]
      else []
    if bstate ≠ 1 then (s, dbg)
    else if btn = BTN_UP_ID then
      let next := clampInt ((s.targetPct : Int) + 5) 0 100
      let s1 := setTargetPercent now next.toNat s
      (s1, dbg ++ [Effect.status (printStatus cfg (strL "CPAD_UP") s1)])
    else if btn = BTN_DOWN_ID then
      let next := clampInt ((s.targetPct : Int) - 5) 0 100
      let s1 := setTargetPercent now next.toNat s
      (s1, dbg ++ [Effect.status (printStatus cfg (strL "CPAD_DOWN") s1)])
    else if btn = BTN_FULL_ID then
      let s1 := setTargetPercent now 100 s
      (s1, dbg ++ [Effect.status (printStatus cfg (strL "CPAD_FULL") s1)])
    else if btn = BTN_STOP_ID then
      let (s1, e1) := stopMotor cfg now s
      (s1, dbg ++ e1 ++ [Effect.status (printStatus cfg (strL "CPAD_STOP") s1)])
    else (s, dbg ++ [Effect.line (strL "CPAD: unknown button")])
  else
    let upper := toUpperA cmd
    if upper = strL "HELP" then (s, [Effect.line printHelpText])
    else if upper = strL "LED ON" then (s, [Effect.led true, Effect.line (strL "LED ON")])
    else if upper = strL "LED OFF" then
      (s, [Effect.led false, Effect.line (strL "LED OFF")])
    else if upper = strL "ARM" then
      let (s1, e1) := escArmNeutral cfg s
      let (s2, e2) := stopMotor cfg now s1
      (s2, e1 ++ e2 ++ [Effect.status (printStatus cfg (strL "ARMED") s2)])
    else if upper = strL "STOP" ∨ upper = strL "0" then
      let (s1, e1) := stopMotor cfg now s
      (s1, e1 ++ [Effect.status (printStatus cfg (strL "STOP") s1)])
    else if upper = strL "FULL" ∨ upper = strL "1" then
      let s1 := setTargetPercent now 100 s
      (s1, [Effect.status (printStatus cfg (strL "FULL") s1)])
    else if upper = strL "DBG ON" then
      ({ s with debugEnabled := true }, [Effect.line (strL "DBG ON")])
    else if upper = strL "DBG OFF" then
      ({ s with debugEnabled := false }, [Effect.line (strL "DBG OFF")])
    else if upper = strL "LOG START" then
      ({ s with logEnabled := true }, [Effect.line (strL "LOG START (CSV)")])
    else if upper = strL "LOG STOP" then
      ({ s with logEnabled := false }, [Effect.line (strL "LOG STOP")])
    else if upper = strL "STATUS" then
      (s, [Effect.status (printStatus cfg (strL "MANUAL") s)])
    else if startsWithA upper (strL "SET ") then
      let v := toIntA (cmd.drop 4)
      let s1 := setTargetPercent now (clampInt v 0 100).toNat s
      (s1, [Effect.status (printStatus cfg (strL "SET") s1)])
    else if startsWithA upper (strL "RPM ") then
      let rpm := toFloatA (cmd.drop 4)
      let pct := percentFromTargetRpm rpm
      let s1 := setTargetPercent now pct s
      (s1, [Effect.status (printStatus cfg (strL "RPM") s1)])
    else if startsWithA upper (strL "US ") then
      let us := toIntA (cmd.drop 3)
      let e1 := escWriteMicrosecondsSafe cfg us
      let s1 := { s with outputPct := ((s.targetPct : ℚ)) }
      (s1, [e1, Effect.status (printStatus cfg (strL "US") s1)])
    else if startsWithA upper (strL "RAMP ") then
      let ms := toIntA (cmd.drop 5)
      let s1 := { s with rampTimeMs := (clampInt ms 0 10000).toNat }
      (s1, [Effect.status (printStatus cfg (strL "RAMP") s1)])
    else if startsWithA upper (strL "LOG PERIOD ") then
      let ms := toIntA (cmd.drop 11)
      let s1 := { s with logPeriodMs := (clampInt ms 20 10000).toNat }
      (s1, [Effect.status (printStatus cfg (strL "LOGPER") s1)])
    else (s, [Effect.line (strL "Unknown cmd: " ++ cmd)])

/-- `handleTextCommand`: trim, drop empty lines, then interpret. -/
def handleTextCommand (cfg : EscConfig) (now : Nat) (cmd0 : Str) (s : SysState) :
    SysState × List Effect :=
  let cmd := trimA cmd0
  if cmd.length = 0 then (s, [])
  else handleCmdTrimmed cfg now cmd s

/-- `RxCallbacks::onWrite`, the BLE receive callback: it trims the written
value, optionally logs it, and invokes the command handler directly, on the
BLE context itself. -/
def RxCallbacks_onWrite (cfg : EscConfig) (now : Nat) (raw : Str) (s : SysState) :
    SysState × List Effect :=
  let cmd := trimA raw
  if cmd.length = 0 then (s, [])
  else
    let dbg : List Effect :=
      if s.debugEnabled then [Effect.debugOut (strL "BLE RX: " ++ cmd)] else []
    let p := handleTextCommand cfg now cmd s
    (p.1, dbg ++ p.2)

/-- One iteration of `appLoop`: poll the pending serial line (if any), tick
the ramp engine, then emit a CSV line when logging is due. -/
def appLoop (cfg : EscConfig) (now : Nat) (serialLine : Option Str) (s : SysState) :
    SysState × List Effect :=
  let p1 :=
    match serialLine with
    | some raw =>
        let cmd := trimA raw
        if 0 < cmd.length then handleTextCommand cfg now cmd s else (s, [])
    | none => (s, [])
  let p2 := applyThrottleWithRamping cfg now p1.1
  let p3 :=
    if p2.1.logEnabled ∧ p2.1.logPeriodMs ≤ u32sub now p2.1.lastLogMs then
      ({ p2.1 with lastLogMs := now },
       [Effect.csv (logCsvNow cfg now (strL "LOG") p2.1)])
    else (p2.1, [])
  (p3.1, p1.2 ++ p2.2 ++ p3.2)

/- ------------------------------------------------------------------ -/
/- Branch lemmas for the keyword protocol                             -/
/- ------------------------------------------------------------------ -/

/-- The `SET ` branch of the interpreter, for any argument tail. -/
theorem handleCmdTrimmed_SET (cfg : EscConfig) (now : Nat) (rest : Str) (s : SysState) :
    handleCmdTrimmed cfg now ('S' :: 'E' :: 'T' :: ' ' :: rest) s =
      (setTargetPercent now (clampInt (toIntA rest) 0 100).toNat s,
       [Effect.status (printStatus cfg (strL "SET")
         (setTargetPercent now (clampInt (toIntA rest) 0 100).toNat s))]) := rfl

/-- The `US ` branch of the interpreter, for any argument tail. -/
theorem handleCmdTrimmed_US (cfg : EscConfig) (now : Nat) (rest : Str) (s : SysState) :
    handleCmdTrimmed cfg now ('U' :: 'S' :: ' ' :: rest) s =
      ({ s with outputPct := ((s.targetPct : ℚ)) },
       [Effect.pulse (escClampForwardOnly cfg (toIntA rest)),
        Effect.status (printStatus cfg (strL "US")
          { s with outputPct := ((s.targetPct : ℚ)) })]) := rfl

/-- The `RAMP ` branch of the interpreter, for any argument tail. -/
theorem handleCmdTrimmed_RAMP (cfg : EscConfig) (now : Nat) (rest : Str) (s : SysState) :
    handleCmdTrimmed cfg now ('R' :: 'A' :: 'M' :: 'P' :: ' ' :: rest) s =
      ({ s with rampTimeMs := (clampInt (toIntA rest) 0 10000).toNat },
       [Effect.status (printStatus cfg (strL "RAMP")
         { s with rampTimeMs := (clampInt (toIntA rest) 0 10000).toNat })]) := rfl

/-- The `LOG PERIOD ` branch of the interpreter, for any argument tail. -/
theorem handleCmdTrimmed_LOGPER (cfg : EscConfig) (now : Nat) (rest : Str) (s : SysState) :
    handleCmdTrimmed cfg now
        ('L' :: 'O' :: 'G' :: ' ' :: 'P' :: 'E' :: 'R' :: 'I' :: 'O' :: 'D' :: ' ' :: rest)
        s =
      ({ s with logPeriodMs := (clampInt (toIntA rest) 20 10000).toNat },
       [Effect.status (printStatus cfg (strL "LOGPER")
         { s with logPeriodMs := (clampInt (toIntA rest) 20 10000).toNat })]) := rfl

/-- `handleTextCommand` on an already-trimmed nonempty line is the
trimmed-line interpreter. -/
theorem handleTextCommand_of_trimmed (cfg : EscConfig) (now : Nat) (cmd : Str)
    (s : SysState) (h : trimA cmd = cmd) (hne : cmd ≠ []) :
    handleTextCommand cfg now cmd s = handleCmdTrimmed cfg now cmd s := by
  unfold handleTextCommand
  rw [h, if_neg (by simpa using hne)]

/- ------------------------------------------------------------------ -/
/- C4: the BLE callback runs the handler on the foreign context        -/
/- ------------------------------------------------------------------ -/

/-- C4 counterexample. The claim says the wireless callback only
enqueues command lines into a synchronized channel and that no command
handler runs on the foreign context.  The code has no queue at all:
`RxCallbacks::onWrite` invokes `handleTextCommand` synchronously on the BLE
context, and already a single `SET 80` write mutates Control State there
(`targetPct` goes from 0 to 80 inside the callback). -/
theorem onWrite_mutates_state_counterexample :
    (RxCallbacks_onWrite g_escCfg 7 (strL "SET 80") initState).1.targetPct = 80 ∧
    initState.targetPct = 0 :=
  ⟨rfl, rfl⟩

/-- C4 amended. Command lines arriving from the wireless transport are
not enqueued anywhere: for every nonblank write, `RxCallbacks::onWrite`
applies `handleTextCommand` to Control State directly in its own (foreign)
execution context, emitting at most a debug echo in addition; the control
loop drains no queue (it only polls its own serial input). -/
theorem onWrite_invokes_handler_directly (cfg : EscConfig) (now : Nat) (raw : Str)
    (s : SysState) (h : trimA raw ≠ []) :
    RxCallbacks_onWrite cfg now raw s =
      ((handleTextCommand cfg now (trimA raw) s).1,
       (if s.debugEnabled then [Effect.debugOut (strL "BLE RX: " ++ trimA raw)] else []) ++
         (handleTextCommand cfg now (trimA raw) s).2) := by
  unfold RxCallbacks_onWrite
  rw [if_neg (by simpa using h)]

/-- Witness for the amended C4 at the write `"  SET 80  "`. -/
theorem onWrite_invokes_handler_directly_witness :
    RxCallbacks_onWrite g_escCfg 7 (strL "  SET 80  ") initState =
      ((handleTextCommand g_escCfg 7 (trimA (strL "  SET 80  ")) initState).1,
       (if initState.debugEnabled then
          [Effect.debugOut (strL "BLE RX: " ++ trimA (strL "  SET 80  "))]
        else []) ++
         (handleTextCommand g_escCfg 7 (trimA (strL "  SET 80  ")) initState).2) :=
  onWrite_invokes_handler_directly g_escCfg 7 (strL "  SET 80  ") initState (by decide)

/- ------------------------------------------------------------------ -/
/- C5: target changes while unarmed are deferred, not errors           -/
/- ------------------------------------------------------------------ -/

/-- C5. In every unarmed state, `SET 80` is accepted into `targetPct`
(which becomes 80), the state stays unarmed, and the subsequent ramp tick
forces `outputPct` to 0 and issues exactly the neutral pulse, ignoring the
stored target: the command's effect is silently deferred until armed rather
than raising an error. -/
theorem unarmed_set_is_deferred (s : SysState) (now now2 : Nat)
    (h : s.armed = false) :
    (handleTextCommand g_escCfg now (strL "SET 80") s).1.targetPct = 80 ∧
    (handleTextCommand g_escCfg now (strL "SET 80") s).1.armed = false ∧
    (applyThrottleWithRamping g_escCfg now2
        (handleTextCommand g_escCfg now (strL "SET 80") s).1).1.outputPct = 0 ∧
    (applyThrottleWithRamping g_escCfg now2
        (handleTextCommand g_escCfg now (strL "SET 80") s).1).2 =
      [Effect.pulse g_escCfg.usNeutral] := by
  have hcmd : (handleTextCommand g_escCfg now (strL "SET 80") s).1 =
      { s with targetPct := 80, lastInputMs := now } := rfl
  rw [hcmd]
  refine ⟨rfl, h, ?_, ?_⟩ <;>
    simp [applyThrottleWithRamping, h, escWriteMicrosecondsSafe, escClampForwardOnly,
      clampInt, g_escCfg]

/-- Witness for C5 from the boot state. -/
theorem unarmed_set_is_deferred_witness :
    (handleTextCommand g_escCfg 3 (strL "SET 80") initState).1.targetPct = 80 ∧
    (handleTextCommand g_escCfg 3 (strL "SET 80") initState).1.armed = false ∧
    (applyThrottleWithRamping g_escCfg 9
        (handleTextCommand g_escCfg 3 (strL "SET 80") initState).1).1.outputPct = 0 ∧
    (applyThrottleWithRamping g_escCfg 9
        (handleTextCommand g_escCfg 3 (strL "SET 80") initState).1).2 =
      [Effect.pulse g_escCfg.usNeutral] :=
  unarmed_set_is_deferred initState 3 9 rfl

/- ------------------------------------------------------------------ -/
/- C6: the US command                                                  -/
/- ------------------------------------------------------------------ -/

/-- C6 counterexample. `US 1600` does more than issue a clamped pulse
and read status: it overwrites `outputPct` with the current target ("keep
ramp logic consistent").  From `targetPct = 0`, `outputPct = 50`, the
command drops `outputPct` to 0, so "all other control state is left
unchanged" fails on the code. -/
theorem us_resets_outputPct_counterexample :
    (handleTextCommand g_escCfg 7 (strL "US 1600")
        { initState with armed := true, outputPct := 50 }).1.outputPct ≠
      ({ initState with armed := true, outputPct := 50 } : SysState).outputPct := by
  have h : (handleTextCommand g_escCfg 7 (strL "US 1600")
      { initState with armed := true, outputPct := 50 }).1.outputPct = ((0 : Nat) : ℚ) :=
    rfl
  rw [h]
  norm_num [initState]

/-- C6 amended.  For every argument tail, `US <arg>` passes the parsed
pulse through the forward-only clamp before issuing it, does not change
`targetPct`, emits a status read against the existing target — and, in
addition, resets `outputPct` to the current `targetPct` (the one deviation
from the claim); every other field of Control State is unchanged. -/
theorem us_command_effects (cfg : EscConfig) (now : Nat) (rest : Str) (s : SysState)
    (h : trimA ('U' :: 'S' :: ' ' :: rest) = 'U' :: 'S' :: ' ' :: rest) :
    handleTextCommand cfg now ('U' :: 'S' :: ' ' :: rest) s =
      ({ s with outputPct := ((s.targetPct : ℚ)) },
       [Effect.pulse (escClampForwardOnly cfg (toIntA rest)),
        Effect.status (printStatus cfg (strL "US")
          { s with outputPct := ((s.targetPct : ℚ)) })]) := by
  rw [handleTextCommand_of_trimmed cfg now _ s h (by simp),
    handleCmdTrimmed_US]

/-- Witness for the amended C6 at `US 1600`. -/
theorem us_command_effects_witness :
    handleTextCommand g_escCfg 7 (strL "US 1600") rampWitnessState =
      ({ rampWitnessState with outputPct := ((rampWitnessState.targetPct : ℚ)) },
       [Effect.pulse (escClampForwardOnly g_escCfg (toIntA (strL "1600"))),
        Effect.status (printStatus g_escCfg (strL "US")
          { rampWitnessState with outputPct := ((rampWitnessState.targetPct : ℚ)) })]) :=
  us_command_effects g_escCfg 7 (strL "1600") rampWitnessState (by decide)

/- ------------------------------------------------------------------ -/
/- C7: out-of-range numeric arguments                                  -/
/- ------------------------------------------------------------------ -/

/-- C7 counterexample. The status line emitted after `LOG PERIOD` does
not echo the clamped period: `LOG PERIOD 5` (clamped to 20) and
`LOG PERIOD 100` (clamped to 100) emit *identical* output, so the clamped
value cannot be read back from the status line, contradicting "the clamped
value is what gets echoed". -/
theorem log_period_echo_counterexample :
    (handleTextCommand g_escCfg 7 (strL "LOG PERIOD 5") initState).1.logPeriodMs = 20 ∧
    (handleTextCommand g_escCfg 7 (strL "LOG PERIOD 100") initState).1.logPeriodMs = 100 ∧
    (20 : Nat) ≠ 100 ∧
    (handleTextCommand g_escCfg 7 (strL "LOG PERIOD 5") initState).2 =
      (handleTextCommand g_escCfg 7 (strL "LOG PERIOD 100") initState).2 :=
  ⟨rfl, rfl, by decide, rfl⟩

/-- C7 amended. Out-of-range numeric arguments of `SET`, `RAMP` and
`LOG PERIOD` are always clamped to the nearest valid bound (`0..100`,
`0..10000`, `20..10000`), never rejected.  For `SET` and `RAMP` the clamped
value is what the immediately emitted status line carries (its `targetPct`
resp. `ramp_ms` field); `LOG PERIOD` also emits a status line, but that
line does not contain the period at all. -/
theorem out_of_range_args_clamped (cfg : EscConfig) (now : Nat) (s : SysState)
    (a b c : Str)
    (ha : trimA ('S' :: 'E' :: 'T' :: ' ' :: a) = 'S' :: 'E' :: 'T' :: ' ' :: a)
    (hb : trimA ('R' :: 'A' :: 'M' :: 'P' :: ' ' :: b) =
      'R' :: 'A' :: 'M' :: 'P' :: ' ' :: b)
    (hc : trimA
        ('L' :: 'O' :: 'G' :: ' ' :: 'P' :: 'E' :: 'R' :: 'I' :: 'O' :: 'D' :: ' ' :: c) =
      'L' :: 'O' :: 'G' :: ' ' :: 'P' :: 'E' :: 'R' :: 'I' :: 'O' :: 'D' :: ' ' :: c) :
    ((handleTextCommand cfg now ('S' :: 'E' :: 'T' :: ' ' :: a) s).1.targetPct =
        (clampInt (toIntA a) 0 100).toNat ∧
      (handleTextCommand cfg now ('S' :: 'E' :: 'T' :: ' ' :: a) s).2 =
        [Effect.status (printStatus cfg (strL "SET")
          (setTargetPercent now (clampInt (toIntA a) 0 100).toNat s))] ∧
      (printStatus cfg (strL "SET")
          (setTargetPercent now (clampInt (toIntA a) 0 100).toNat s)).targetPct =
        (clampInt (toIntA a) 0 100).toNat) ∧
    ((handleTextCommand cfg now ('R' :: 'A' :: 'M' :: 'P' :: ' ' :: b) s).1.rampTimeMs =
        (clampInt (toIntA b) 0 10000).toNat ∧
      (handleTextCommand cfg now ('R' :: 'A' :: 'M' :: 'P' :: ' ' :: b) s).2 =
        [Effect.status (printStatus cfg (strL "RAMP")
          { s with rampTimeMs := (clampInt (toIntA b) 0 10000).toNat })] ∧
      (printStatus cfg (strL "RAMP")
          { s with rampTimeMs := (clampInt (toIntA b) 0 10000).toNat }).ramp_ms =
        (clampInt (toIntA b) 0 10000).toNat) ∧
    ((handleTextCommand cfg now
          ('L' :: 'O' :: 'G' :: ' ' :: 'P' :: 'E' :: 'R' :: 'I' :: 'O' :: 'D' :: ' ' :: c)
          s).1.logPeriodMs =
        (clampInt (toIntA c) 20 10000).toNat ∧
      (handleTextCommand cfg now
          ('L' :: 'O' :: 'G' :: ' ' :: 'P' :: 'E' :: 'R' :: 'I' :: 'O' :: 'D' :: ' ' :: c)
          s).2 =
        [Effect.status (printStatus cfg (strL "LOGPER")
          { s with logPeriodMs := (clampInt (toIntA c) 20 10000).toNat })]) := by
  rw [handleTextCommand_of_trimmed cfg now _ s ha (by simp), handleCmdTrimmed_SET,
    handleTextCommand_of_trimmed cfg now _ s hb (by simp), handleCmdTrimmed_RAMP,
    handleTextCommand_of_trimmed cfg now _ s hc (by simp), handleCmdTrimmed_LOGPER]
  have hset : ∀ v : Int,
      (clampInt (((clampInt v 0 100).toNat : Int)) 0 100).toNat = (clampInt v 0 100).toNat := by
    intro v
    unfold clampInt
    split_ifs <;> omega
  refine ⟨⟨?_, rfl, ?_⟩, ⟨rfl, rfl, rfl⟩, ⟨rfl, rfl⟩⟩
  · simpa [setTargetPercent] using hset (toIntA a)
  · simpa [printStatus, setTargetPercent] using hset (toIntA a)

/-- Witness for the amended C7: `SET 150` (→ 100), `RAMP -5` (→ 0),
`LOG PERIOD 5` (→ 20) from the boot state. -/
theorem out_of_range_args_clamped_witness :
    ((handleTextCommand g_escCfg 2 (strL "SET 150") initState).1.targetPct =
        (clampInt (toIntA (strL "150")) 0 100).toNat ∧
      (handleTextCommand g_escCfg 2 (strL "SET 150") initState).2 =
        [Effect.status (printStatus g_escCfg (strL "SET")
          (setTargetPercent 2 (clampInt (toIntA (strL "150")) 0 100).toNat initState))] ∧
      (printStatus g_escCfg (strL "SET")
          (setTargetPercent 2 (clampInt (toIntA (strL "150")) 0 100).toNat
            initState)).targetPct =
        (clampInt (toIntA (strL "150")) 0 100).toNat) ∧
    ((handleTextCommand g_escCfg 2 (strL "RAMP -5") initState).1.rampTimeMs =
        (clampInt (toIntA (strL "-5")) 0 10000).toNat ∧
      (handleTextCommand g_escCfg 2 (strL "RAMP -5") initState).2 =
        [Effect.status (printStatus g_escCfg (strL "RAMP")
          { initState with rampTimeMs := (clampInt (toIntA (strL "-5")) 0 10000).toNat })] ∧
      (printStatus g_escCfg (strL "RAMP")
          { initState with
            rampTimeMs := (clampInt (toIntA (strL "-5")) 0 10000).toNat }).ramp_ms =
        (clampInt (toIntA (strL "-5")) 0 10000).toNat) ∧
    ((handleTextCommand g_escCfg 2 (strL "LOG PERIOD 5") initState).1.logPeriodMs =
        (clampInt (toIntA (strL "5")) 20 10000).toNat ∧
      (handleTextCommand g_escCfg 2 (strL "LOG PERIOD 5") initState).2 =
        [Effect.status (printStatus g_escCfg (strL "LOGPER")
          { initState with
            logPeriodMs := (clampInt (toIntA (strL "5")) 20 10000).toNat })]) :=
  out_of_range_args_clamped g_escCfg 2 initState (strL "150") (strL "-5") (strL "5")
    (by decide) (by decide) (by decide)

/- ------------------------------------------------------------------ -/
/- C8: the Control Pad micro-protocol                                  -/
/- ------------------------------------------------------------------ -/

/-- C8. For every button-event line `!B<id><state>` of length at least
4: only the press state value (`1`) triggers an action — any other state
value leaves the whole state unchanged; a press with the FULL-mapped button
id (`1`) sets `targetPct = 100`; and a press with an id mapped to none of
UP/DOWN/FULL/STOP leaves the state unchanged and produces only the
`CPAD: unknown button` diagnostic (besides the optional debug echo). -/
theorem cpad_button_events (cfg : EscConfig) (now : Nat) (c2 c3 : Char) (rest : Str)
    (s : SysState)
    (htrim : trimA ('!' :: 'B' :: c2 :: c3 :: rest) = '!' :: 'B' :: c2 :: c3 :: rest) :
    ((((c3.toNat : Int) - 48) ≠ 1 →
      (handleTextCommand cfg now ('!' :: 'B' :: c2 :: c3 :: rest) s).1 = s)) ∧
    (((c3.toNat : Int) - 48) = 1 → ((c2.toNat : Int) - 48) = BTN_FULL_ID →
      (handleTextCommand cfg now ('!' :: 'B' :: c2 :: c3 :: rest) s).1.targetPct = 100) ∧
    (((c3.toNat : Int) - 48) = 1 →
      ((c2.toNat : Int) - 48) ≠ BTN_UP_ID → ((c2.toNat : Int) - 48) ≠ BTN_DOWN_ID →
      ((c2.toNat : Int) - 48) ≠ BTN_FULL_ID → ((c2.toNat : Int) - 48) ≠ BTN_STOP_ID →
      (handleTextCommand cfg now ('!' :: 'B' :: c2 :: c3 :: rest) s).1 = s ∧
      (handleTextCommand cfg now ('!' :: 'B' :: c2 :: c3 :: rest) s).2 =
        (if s.debugEnabled then
           [Effect.debugOut (strL "CPAD raw=" ++ ('!' :: 'B' :: c2 :: c3 :: rest) ++
             strL " btn=" ++ intToStr (((c2.toNat : Int) - 48)) ++
             strL " state=" ++ intToStr (((c3.toNat : Int) - 48)))]
         else []) ++ [Effect.line (strL "CPAD: unknown button")]) := by
  have hcmd := handleTextCommand_of_trimmed cfg now _ s htrim (by simp)
  have hcond : startsWithA ('!' :: 'B' :: c2 :: c3 :: rest) (strL "!B") = true ∧
      4 ≤ ('!' :: 'B' :: c2 :: c3 :: rest).length := by
    refine ⟨rfl, ?_⟩
    simp only [List.length_cons]
    omega
  have h2 : charAtA ('!' :: 'B' :: c2 :: c3 :: rest) 2 = c2 := rfl
  have h3 : charAtA ('!' :: 'B' :: c2 :: c3 :: rest) 3 = c3 := rfl
  refine ⟨?_, ?_, ?_⟩
  · intro hst
    rw [hcmd]
    simp only [handleCmdTrimmed, h2, h3]
    rw [if_pos hcond, if_pos hst]
  · intro h1 hfull
    rw [hcmd]
    simp only [handleCmdTrimmed, h2, h3]
    rw [if_pos hcond, if_neg (by simp [h1]), hfull,
      if_neg (by decide), if_neg (by decide), if_pos rfl]
    rfl
  · intro h1 hup hdown hfull hstop
    rw [hcmd]
    simp only [handleCmdTrimmed, h2, h3]
    rw [if_pos hcond, if_neg (by simp [h1]),
      if_neg hup, if_neg hdown, if_neg hfull, if_neg hstop]
    exact ⟨rfl, rfl⟩

/-- Witness for C8 at `!B11` (FULL button, press) from the boot state. -/
theorem cpad_button_events_witness :
    (((('1' : Char).toNat : Int) - 48) ≠ 1 →
      (handleTextCommand g_escCfg 1 ('!' :: 'B' :: '1' :: '1' :: []) initState).1 =
        initState) ∧
    (((('1' : Char).toNat : Int) - 48) = 1 →
      ((('1' : Char).toNat : Int) - 48) = BTN_FULL_ID →
      (handleTextCommand g_escCfg 1 ('!' :: 'B' :: '1' :: '1' :: [])
        initState).1.targetPct = 100) ∧
    (((('1' : Char).toNat : Int) - 48) = 1 →
      ((('1' : Char).toNat : Int) - 48) ≠ BTN_UP_ID →
      ((('1' : Char).toNat : Int) - 48) ≠ BTN_DOWN_ID →
      ((('1' : Char).toNat : Int) - 48) ≠ BTN_FULL_ID →
      ((('1' : Char).toNat : Int) - 48) ≠ BTN_STOP_ID →
      (handleTextCommand g_escCfg 1 ('!' :: 'B' :: '1' :: '1' :: []) initState).1 =
        initState ∧
      (handleTextCommand g_escCfg 1 ('!' :: 'B' :: '1' :: '1' :: []) initState).2 =
        (if initState.debugEnabled then
           [Effect.debugOut (strL "CPAD raw=" ++ ('!' :: 'B' :: '1' :: '1' :: []) ++
             strL " btn=" ++ intToStr (((('1' : Char).toNat : Int) - 48)) ++
             strL " state=" ++ intToStr (((('1' : Char).toNat : Int) - 48)))]
         else []) ++ [Effect.line (strL "CPAD: unknown button")]) :=
  cpad_button_events g_escCfg 1 '1' '1' [] initState (by decide)

/- ------------------------------------------------------------------ -/
/- C9: CSV logging                                                     -/
/- ------------------------------------------------------------------ -/

/-- Does an effect carry a CSV line? -/
def isCsv : Effect → Bool
  | Effect.csv _ => true
  | _ => false

/-- The effects of a ramp tick are exactly one pulse write. -/
theorem applyThrottle_effects (cfg : EscConfig) (now : Nat) (s : SysState) :
    ∃ us, (applyThrottleWithRamping cfg now s).2 = [Effect.pulse us] := by
  unfold applyThrottleWithRamping escWriteMicrosecondsSafe
  cases hb : s.armed <;> simp [hb]

/-- A ramp tick does not touch the logging configuration. -/
theorem applyThrottle_preserves_logFields (cfg : EscConfig) (now : Nat) (s : SysState) :
    (applyThrottleWithRamping cfg now s).1.logEnabled = s.logEnabled ∧
    (applyThrottleWithRamping cfg now s).1.logPeriodMs = s.logPeriodMs ∧
    (applyThrottleWithRamping cfg now s).1.lastLogMs = s.lastLogMs := by
  unfold applyThrottleWithRamping
  cases hb : s.armed <;> simp [hb]

/-- C9. On a loop iteration with logging enabled (no serial input
pending), a CSV line is emitted iff `now - lastLogMs ≥ logPeriodMs` (in
`uint32_t` arithmetic); when due, the emission is exactly one CSV line for
the post-tick state and `lastLogMs` is updated to `now`, otherwise nothing
is added and `lastLogMs` is kept; and the emitted line is the
comma-separated concatenation `t_ms,tag,connected,armed,targetPct,
outputPct,pulse_us,rpm_est` in exactly that field order. -/
theorem csv_logging_gate (cfg : EscConfig) (now : Nat) (s : SysState)
    (hlog : s.logEnabled = true) :
    (((appLoop cfg now none s).2.any isCsv = true) ↔
      s.logPeriodMs ≤ u32sub now s.lastLogMs) ∧
    (s.logPeriodMs ≤ u32sub now s.lastLogMs →
      (appLoop cfg now none s).2 =
        (applyThrottleWithRamping cfg now s).2 ++
          [Effect.csv (logCsvNow cfg now (strL "LOG")
            (applyThrottleWithRamping cfg now s).1)] ∧
      (appLoop cfg now none s).1.lastLogMs = now) ∧
    (u32sub now s.lastLogMs < s.logPeriodMs →
      (appLoop cfg now none s).2 = (applyThrottleWithRamping cfg now s).2 ∧
      (appLoop cfg now none s).1.lastLogMs = s.lastLogMs) ∧
    (logCsvNow cfg now (strL "LOG") (applyThrottleWithRamping cfg now s).1 =
      natToStr now ++ strL "," ++ strL "LOG" ++ strL "," ++
      boolS (applyThrottleWithRamping cfg now s).1.deviceConnected ++ strL "," ++
      boolS (applyThrottleWithRamping cfg now s).1.armed ++ strL "," ++
      natToStr (applyThrottleWithRamping cfg now s).1.targetPct ++ strL "," ++
      fmtFixed (applyThrottleWithRamping cfg now s).1.outputPct 2 ++ strL "," ++
      intToStr (escPulseFromPercent cfg
        (u8OfFloat ((applyThrottleWithRamping cfg now s).1.outputPct + 1/2))) ++
        strL "," ++
      fmtFixed (estimateRpmFromPercent
        (applyThrottleWithRamping cfg now s).1.outputPct) 0) := by
  obtain ⟨pul, hpul⟩ := applyThrottle_effects cfg now s
  obtain ⟨hE, hP, hL⟩ := applyThrottle_preserves_logFields cfg now s
  by_cases hgate : s.logPeriodMs ≤ u32sub now s.lastLogMs
  · have hcond : (applyThrottleWithRamping cfg now s).1.logEnabled = true ∧
        (applyThrottleWithRamping cfg now s).1.logPeriodMs ≤
          u32sub now (applyThrottleWithRamping cfg now s).1.lastLogMs := by
      rw [hE, hP, hL]
      exact ⟨hlog, hgate⟩
    have happ2 : (appLoop cfg now none s).2 =
        (applyThrottleWithRamping cfg now s).2 ++
          [Effect.csv (logCsvNow cfg now (strL "LOG")
            (applyThrottleWithRamping cfg now s).1)] := by
      simp only [appLoop]
      rw [if_pos hcond]
      simp
    have happ1 : (appLoop cfg now none s).1.lastLogMs = now := by
      simp only [appLoop]
      rw [if_pos hcond]
    refine ⟨?_, fun _ => ⟨happ2, happ1⟩, fun hlt => absurd hgate (not_le.mpr hlt), rfl⟩
    rw [happ2]
    simp [isCsv, hgate]
  · have hcond : ¬ ((applyThrottleWithRamping cfg now s).1.logEnabled = true ∧
        (applyThrottleWithRamping cfg now s).1.logPeriodMs ≤
          u32sub now (applyThrottleWithRamping cfg now s).1.lastLogMs) := by
      rw [hE, hP, hL]
      exact fun h => hgate h.2
    have happ2 : (appLoop cfg now none s).2 =
        (applyThrottleWithRamping cfg now s).2 := by
      simp only [appLoop]
      rw [if_neg hcond]
      simp
    have happ1 : (appLoop cfg now none s).1.lastLogMs = s.lastLogMs := by
      simp only [appLoop]
      rw [if_neg hcond]
      exact hL
    refine ⟨?_, fun hle => absurd hle hgate, fun _ => ⟨happ2, happ1⟩, rfl⟩
    rw [happ2, hpul]
    simp [isCsv, hgate]

/-- Witness for C9: logging enabled, period 200 ms, last emission at 0,
tick at 250 ms — the line is due. -/
theorem csv_logging_gate_witness :
    ((((appLoop g_escCfg 250 none { initState with logEnabled := true }).2.any isCsv) =
        true) ↔
      ({ initState with logEnabled := true } : SysState).logPeriodMs ≤
        u32sub 250 ({ initState with logEnabled := true } : SysState).lastLogMs) ∧
    (({ initState with logEnabled := true } : SysState).logPeriodMs ≤
        u32sub 250 ({ initState with logEnabled := true } : SysState).lastLogMs →
      (appLoop g_escCfg 250 none { initState with logEnabled := true }).2 =
        (applyThrottleWithRamping g_escCfg 250 { initState with logEnabled := true }).2 ++
          [Effect.csv (logCsvNow g_escCfg 250 (strL "LOG")
            (applyThrottleWithRamping g_escCfg 250
              { initState with logEnabled := true }).1)] ∧
      (appLoop g_escCfg 250 none { initState with logEnabled := true }).1.lastLogMs =
        250) ∧
    (u32sub 250 ({ initState with logEnabled := true } : SysState).lastLogMs <
        ({ initState with logEnabled := true } : SysState).logPeriodMs →
      (appLoop g_escCfg 250 none { initState with logEnabled := true }).2 =
        (applyThrottleWithRamping g_escCfg 250
          { initState with logEnabled := true }).2 ∧
      (appLoop g_escCfg 250 none { initState with logEnabled := true }).1.lastLogMs =
        ({ initState with logEnabled := true } : SysState).lastLogMs) ∧
    (logCsvNow g_escCfg 250 (strL "LOG")
        (applyThrottleWithRamping g_escCfg 250 { initState with logEnabled := true }).1 =
      natToStr 250 ++ strL "," ++ strL "LOG" ++ strL "," ++
      boolS (applyThrottleWithRamping g_escCfg 250
        { initState with logEnabled := true }).1.deviceConnected ++ strL "," ++
      boolS (applyThrottleWithRamping g_escCfg 250
        { initState with logEnabled := true }).1.armed ++ strL "," ++
      natToStr (applyThrottleWithRamping g_escCfg 250
        { initState with logEnabled := true }).1.targetPct ++ strL "," ++
      fmtFixed (applyThrottleWithRamping g_escCfg 250
        { initState with logEnabled := true }).1.outputPct 2 ++ strL "," ++
      intToStr (escPulseFromPercent g_escCfg
        (u8OfFloat ((applyThrottleWithRamping g_escCfg 250
          { initState with logEnabled := true }).1.outputPct + 1/2))) ++ strL "," ++
      fmtFixed (estimateRpmFromPercent
        (applyThrottleWithRamping g_escCfg 250
          { initState with logEnabled := true }).1.outputPct) 0) :=
  csv_logging_gate g_escCfg 250 { initState with logEnabled := true } rfl

/- ------------------------------------------------------------------ -/
/- C10: STOP is immediate                                              -/
/- ------------------------------------------------------------------ -/

/-- C10. In every state, the `STOP` command, its alias `0`, and the
Control Pad stop button press (`!B21`) set `targetPct` to 0, set
`outputPct` to 0 in the same step, and issue the neutral pulse immediately:
the drop to zero is not run through the ramp, whatever `rampTimeMs` or the
current `outputPct` are. -/
theorem stop_bypasses_ramp (s : SysState) (now : Nat) :
    ((handleTextCommand g_escCfg now (strL "STOP") s).1.targetPct = 0 ∧
      (handleTextCommand g_escCfg now (strL "STOP") s).1.outputPct = 0 ∧
      Effect.pulse g_escCfg.usNeutral ∈
        (handleTextCommand g_escCfg now (strL "STOP") s).2) ∧
    ((handleTextCommand g_escCfg now (strL "0") s).1.targetPct = 0 ∧
      (handleTextCommand g_escCfg now (strL "0") s).1.outputPct = 0 ∧
      Effect.pulse g_escCfg.usNeutral ∈
        (handleTextCommand g_escCfg now (strL "0") s).2) ∧
    ((handleTextCommand g_escCfg now (strL "!B21") s).1.targetPct = 0 ∧
      (handleTextCommand g_escCfg now (strL "!B21") s).1.outputPct = 0 ∧
      Effect.pulse g_escCfg.usNeutral ∈
        (handleTextCommand g_escCfg now (strL "!B21") s).2) := by
  refine ⟨⟨rfl, rfl, ?_⟩, ⟨rfl, rfl, ?_⟩, ⟨rfl, rfl, ?_⟩⟩
  · exact List.Mem.head _
  · exact List.Mem.head _
  · exact List.mem_append_left _ (List.mem_append_right _ (List.Mem.head _))
